import Mathlib

/-!
Shallow embedding of the bobby_tv storage-bounded prefetch/rotation subsystem
(`src/shitting_it_out/video_manager.py`, `obs_feeder.py`, `stream_coordinator.py`).

Disk state is modelled abstractly: a video file is a (name, mtime, size)
record, the directory is a list of such records in listing order, and the
free disk space is carried explicitly (deleting a file of size `s` turns
free space `f` into `f + s`, mirroring `shutil.disk_usage` re-reads).
Sizes are in abstract units (the Python code compares GB floats derived
from byte counts; the comparisons are order-isomorphic to these Nat
comparisons on the same units).
-/

namespace BobbyTV

/-- A video file on disk: file name, modification time (the download time,
since files are only created by downloads), and size. -/
structure Video where
  name : String
  mtime : Nat
  size : Nat
deriving Repr, DecidableEq

/-- The content-store directory (`streaming_videos/`): the `*.mp4` files in
directory-listing order, plus the current free disk space. -/
structure StoreFS where
  videos : List Video
  free : Nat
deriving Repr, DecidableEq

/-- Total size of the held videos, as summed by `get_storage_info`
(`video_size = sum of f.stat().st_size for *.mp4`). -/
def heldSize (vs : List Video) : Nat :=
  (vs.map (·.size)).sum

/-- `VideoManager.get_storage_info`'s `can_download` field:
`free_gb > MIN_FREE_SPACE_GB and video_gb < MAX_STORAGE_GB`
(video_manager.py line 63).  The thresholds are the module constants
`MIN_FREE_SPACE_GB` / `MAX_STORAGE_GB`, taken here as parameters. -/
def can_download (minFree maxStorage : Nat) (fs : StoreFS) : Bool :=
  decide (minFree < fs.free) && decide (heldSize fs.videos < maxStorage)

/-- Spec-side admission formula, written from the spec's words for
comparison with `can_download`: "`canAdmit(candidateBytes) -> bool`: true iff
`freeBytes - candidateBytes > minFreeReserve` AND
`heldBytes + candidateBytes < maxStorageBudget`".  (Nat subtraction
truncates at zero, which agrees with the intended reading for
nonnegative reserves.) -/
def specCanAdmit (minFree maxStorage : Nat) (fs : StoreFS) (candidate : Nat) : Prop :=
  minFree < fs.free - candidate ∧ heldSize fs.videos + candidate < maxStorage

instance (minFree maxStorage : Nat) (fs : StoreFS) (candidate : Nat) :
    Decidable (specCanAdmit minFree maxStorage fs candidate) :=
  inferInstanceAs (Decidable (_ ∧ _))

/-- `sorted(self.video_dir.glob('*.mp4'), key=lambda x: x.stat().st_mtime)`
(video_manager.py line 202): stable ascending sort on mtime.  Mathlib's
`insertionSort` with a `≤` relation is stable, like Python's `sorted`. -/
def sortByMtime (l : List Video) : List Video :=
  List.insertionSort (fun a b => a.mtime ≤ b.mtime) l

/-- The slice of `playlist.json` that `cleanup_old_videos` consults:
`current` (identifier of the currently playing item) and `downloaded`
(identifier → file-name index; the other per-item fields are unused by
cleanup). -/
structure Playlist where
  current : Option String
  downloaded : List (String × String)
deriving Repr, DecidableEq

/-- `self.playlist['downloaded'].get(identifier)` restricted to the `file`
field: first index entry for the identifier, if any. -/
def lookupFile (downloaded : List (String × String)) (id : String) : Option String :=
  (downloaded.find? (fun e => e.1 == id)).map (·.2)

/-- The `current_file` computed at video_manager.py lines 205–209: the file
name bound to the playlist's current item, present only when
`keep_current` is set and the index still has the entry. -/
def currentFile (keepCurrent : Bool) (pl : Playlist) : Option String :=
  if keepCurrent then pl.current.bind (lookupFile pl.downloaded) else none

/-- Removal of the first index entry whose `file` field matches a deleted
file's name (the `for identifier, info in ...: if info['file'] == video.name:
del ...; break` loop at video_manager.py lines 231–234). -/
def removeIndexEntry (file : String) : List (String × String) → List (String × String)
  | [] => []
  | e :: es => if e.2 == file then es else e :: removeIndexEntry file es

/-- Result of a cleanup pass: surviving videos, resulting free space, the
surviving index, and the names of deleted files in deletion order. -/
structure CleanupResult where
  videos : List Video
  free : Nat
  downloaded : List (String × String)
  deleted : List String
deriving Repr, DecidableEq

/-- The `for video in videos:` eviction loop of
`VideoManager.cleanup_old_videos` (video_manager.py lines 214–236):
skip the kept current file; otherwise re-read storage and stop as soon
as the budget check passes; otherwise delete the file, update free
space, and drop its index entry.  `kept` accumulates the files passed
over so far (still on disk when storage is re-read). -/
def cleanupGo (minFree maxStorage : Nat) (keep : Option String) :
    List Video → List Video → Nat → List (String × String) → CleanupResult
  | [], kept, free, idx => ⟨kept, free, idx, []⟩
  | v :: vs, kept, free, idx =>
    if keep == some v.name then
      cleanupGo minFree maxStorage keep vs (kept ++ [v]) free idx
    else if minFree < free ∧ heldSize (kept ++ v :: vs) < maxStorage then
      ⟨kept ++ v :: vs, free, idx, []⟩
    else
      let r := cleanupGo minFree maxStorage keep vs kept (free + v.size)
        (removeIndexEntry v.name idx)
      ⟨r.videos, r.free, r.downloaded, v.name :: r.deleted⟩

/-- `VideoManager.cleanup_old_videos` (video_manager.py lines 192–240):
return unchanged when the budget check already passes; otherwise run the
eviction loop over the videos sorted oldest-mtime-first, protecting only
the current item's file (when `keep_current`). -/
def cleanup_old_videos (minFree maxStorage : Nat) (keepCurrent : Bool)
    (pl : Playlist) (fs : StoreFS) : CleanupResult :=
  if minFree < fs.free ∧ heldSize fs.videos < maxStorage then
    ⟨fs.videos, fs.free, pl.downloaded, []⟩
  else
    cleanupGo minFree maxStorage (currentFile keepCurrent pl)
      (sortByMtime fs.videos) [] fs.free pl.downloaded

/-- Spec-side eviction preference, written from the spec's words for
comparison with `cleanup_old_videos`: prefer the least-recently-downloaded
item, breaking ties on equal download time by the larger byte size. -/
def specBetter (a b : Video) : Bool :=
  decide (a.mtime < b.mtime) || (decide (a.mtime = b.mtime) && decide (b.size < a.size))

/-- Spec-side victim choice: the most-preferred evictable item, if any. -/
def specPickVictim : List Video → Option Video
  | [] => none
  | v :: vs =>
    match specPickVictim vs with
    | none => some v
    | some w => if specBetter w v then some w else some v

/-- Remove the first video with the given name. -/
def eraseByName (n : String) : List Video → List Video
  | [] => []
  | v :: vs => if v.name == n then vs else v :: eraseByName n vs

/-- Spec-side `reclaimUntilBudgetOk`, written from the spec's words for
comparison with `cleanup_old_videos`: repeatedly evict the
least-recently-downloaded unprotected item (larger size first on ties)
until `canAdmit(0)` holds or no evictable items remain.  Fuel bounds the
recursion; it is instantiated with the number of held items. -/
def reclaimSpecGo (minFree maxStorage : Nat) (protect : List String) :
    Nat → List Video → Nat → List String
  | 0, _, _ => []
  | fuel + 1, videos, free =>
    if minFree < free ∧ heldSize videos < maxStorage then []
    else
      match specPickVictim (videos.filter (fun v => !(protect.contains v.name))) with
      | none => []
      | some v =>
        v.name :: reclaimSpecGo minFree maxStorage protect fuel
          (eraseByName v.name videos) (free + v.size)

/-- Spec-side `reclaimUntilBudgetOk` at full fuel: the sequence of evicted
file names. -/
def reclaimUntilBudgetOkSpec (minFree maxStorage : Nat) (protect : List String)
    (videos : List Video) (free : Nat) : List String :=
  reclaimSpecGo minFree maxStorage protect videos.length videos free

/-- `StreamCoordinator.cleanup_old_video` (stream_coordinator.py lines
88–97): delete every `*.mp4` whose name is not in `keep_files`; files
already absent are simply not in the listing, so nothing raises. -/
def cleanup_old_video (keepFiles : List String) (videos : List Video) : List Video :=
  videos.filter (fun v => keepFiles.contains v.name)

/-- The guarded per-file deletion pattern used by the coordinator
(`if old_file.exists(): old_file.unlink()`, stream_coordinator.py lines
105–108): remove the file with the given name if present, succeed
silently otherwise. -/
def evictFile (name : String) (videos : List Video) : List Video :=
  videos.filter (fun v => !(v.name == name))

/-- The persisted rotation state consulted on restart: the file names bound
to the now-playing and up-next slots and the start time
(`streaming_state.json`'s `now_playing.file` / `up_next.file` /
`start_time`; the title/duration/history fields play no part in the
restart decision). -/
structure CoordPersisted where
  nowPlaying : Option String
  upNext : Option String
  startTime : Option Nat
deriving Repr, DecidableEq

/-- `StreamCoordinator.load_state` (stream_coordinator.py lines 24–37):
parse the state file when present, otherwise the empty default.  No
field is validated against the disk. -/
def load_state (persisted : Option CoordPersisted) : CoordPersisted :=
  match persisted with
  | some st => st
  | none => ⟨none, none, none⟩

/-- The spec's protected set: the files bound to NowPlaying or UpNext. -/
def protectedFiles (cs : CoordPersisted) : List String :=
  cs.nowPlaying.toList ++ cs.upNext.toList

/-- The restart guard of `StreamCoordinator.run_coordinator`
(stream_coordinator.py line 224): initial setup runs only when the loaded
state has no now-playing binding; otherwise the loaded binding is kept.
`fileOnDisk` reports which files exist; the guard does not consult it.
Returns `true` when the loaded binding is kept (initial setup skipped). -/
def run_coordinator_keeps (persisted : Option CoordPersisted)
    (fileOnDisk : String → Bool) : Bool :=
  (load_state persisted).nowPlaying.isSome

/-- The three paths touched by `OBSFeeder.swap_videos`: the fixed playback
path `current_stream.mp4`, the prepared `next_stream.mp4`, and the
transient `temp_stream.mp4`.  Each holds `some` content (abstracted to a
Nat identifying the bytes) or is absent. -/
structure SwapFS where
  obs : Option Nat
  next : Option Nat
  temp : Option Nat
deriving Repr, DecidableEq

/-- First rename of `swap_videos` (obs_feeder.py lines 105–106):
`if self.obs_file.exists(): self.obs_file.rename(temp_file)`.  A rename
onto an existing path overwrites it. -/
def swapStep1 (fs : SwapFS) : SwapFS :=
  if fs.obs.isSome then ⟨none, fs.next, fs.obs⟩ else fs

/-- Second rename (obs_feeder.py line 109):
`self.next_file.rename(self.obs_file)`. -/
def swapStep2 (fs : SwapFS) : SwapFS :=
  ⟨fs.next, none, fs.temp⟩

/-- Transient cleanup (obs_feeder.py lines 112–113):
`if temp_file.exists(): temp_file.unlink()`. -/
def swapStep3 (fs : SwapFS) : SwapFS :=
  if fs.temp.isSome then ⟨fs.obs, fs.next, none⟩ else fs

/-- `OBSFeeder.swap_videos` (obs_feeder.py lines 93–116): returns `False`
without touching anything when no next video is prepared; otherwise runs
the three steps and returns `True`. -/
def swap_videos (fs : SwapFS) : Bool × SwapFS :=
  if fs.next.isNone then (false, fs)
  else (true, swapStep3 (swapStep2 (swapStep1 fs)))

/-- The observable filesystem states during a `swap_videos` run, in order:
initial, after the first rename, after the second rename, after the
transient cleanup (just the initial state when the call bails out). -/
def swapTrace (fs : SwapFS) : List SwapFS :=
  if fs.next.isNone then [fs]
  else [fs, swapStep1 fs, swapStep2 (swapStep1 fs), swapStep3 (swapStep2 (swapStep1 fs))]

/-- `swap_videos` when the second rename (`next` onto the fixed path)
raises an OS error: the body has no handler (obs_feeder.py lines
93–116 contain no try/except), so the exception propagates with the
filesystem as of the end of the first rename.  `none` models the
propagated exception, `some b` a normal return of `b`. -/
def swap_videos_rename2_fails (fs : SwapFS) : Option Bool × SwapFS :=
  if fs.next.isNone then (some false, fs)
  else (none, swapStep1 fs)

/-- The slice of `obs_feeder_state.json` that `monitor_playback` consults:
current video name, start timestamp, and probed duration in seconds
(floats in the source, exact rationals here). -/
structure FeederState where
  currentVideo : Option String
  startedAt : Option ℚ
  currentDuration : ℚ
deriving DecidableEq

/-- Outcome of one `monitor_playback` cycle: whether a swap is due
(`remaining <= 2`, the returned boolean) and whether a prefetch thread
was started this cycle (`progress > 75 and not next_file.exists()`). -/
structure MonitorResult where
  swapNeeded : Bool
  prefetchStarted : Bool
deriving Repr, DecidableEq

/-- `OBSFeeder.monitor_playback` (obs_feeder.py lines 118–148).  `now` is
the wall clock at the cycle; `nextExists` is `next_file.exists()` — a
prefetch in progress has already created `next_stream.mp4`
(`shutil.copy2` opens its destination at the start of the copy), so a
downloading prefetch makes `nextExists` true on the following cycle. -/
def monitor_playback (st : FeederState) (now : ℚ) (nextExists : Bool) : MonitorResult :=
  match st.currentVideo with
  | none => ⟨false, false⟩
  | some _ =>
    match st.startedAt with
    | none => ⟨false, false⟩
    | some t0 =>
      let elapsed := now - t0
      let duration := st.currentDuration
      if 0 < duration then
        let remaining := duration - elapsed
        let progress := elapsed / duration * 100
        ⟨decide (remaining ≤ 2), decide (75 < progress) && !nextExists⟩
      else ⟨false, false⟩

/-- `OBSFeeder.initialize_stream` restricted to what the restart claim
observes (obs_feeder.py lines 168–190): bind the first queued video (by
sorted name) as the current stream with a fresh start time and probed
duration; fail when the queue is empty. -/
def initStream (queue : List String) (now dur : ℚ) : Option FeederState :=
  match queue with
  | [] => none
  | v :: _ => some ⟨some v, some now, dur⟩

/-- The restart guard of `OBSFeeder.run_feeder` (obs_feeder.py lines
199–203): keep the loaded state when the fixed playback path exists,
otherwise rebuild from scratch via `initialize_stream`, discarding the
loaded bindings. -/
def run_feeder_init (obsExists : Bool) (loaded : FeederState)
    (queue : List String) (now dur : ℚ) : Option FeederState :=
  if obsExists then some loaded else initStream queue now dur

/-- Outcome of a `VideoManager.download_video` attempt: the byte count of
the file left at the final output path (`none` = no file), whether an
index entry was recorded in `playlist['downloaded']`, and whether the
call returned the output path (success). -/
structure DownloadOutcome where
  finalFile : Option Nat
  indexed : Bool
  success : Bool
deriving Repr, DecidableEq

/-- `VideoManager.download_video`'s write loop and exits (video_manager.py
lines 119–190): bail out when `can_download` is false; otherwise write
the stream's chunks directly to the final output path (no temporary
path).  `failAfter = some k` models an exception raised after `k` chunks
were written (network error mid-stream): the `except` branch unlinks the
output file if it exists.  On normal completion the file is kept and the
index entry recorded with no byte-count check — `declaredSize` is used
only for progress display. -/
def download_video (canDl : Bool) (declaredSize : Nat) (chunks : List Nat)
    (failAfter : Option Nat) : DownloadOutcome :=
  if !canDl then ⟨none, false, false⟩
  else
    match failAfter with
    | some _ => ⟨none, false, false⟩
    | none => ⟨some chunks.sum, true, true⟩

/-- The byte counts observable at the final output path while a successful
`download_video` run is writing: after `k` chunks the path holds the sum
of the first `k` chunk sizes (the path exists, partially written, from
the first write on). -/
def downloadMidSizes (chunks : List Nat) : List Nat :=
  (List.range (chunks.length + 1)).map (fun k => ((chunks.take k).sum))

/-! Shared lemmas about the cleanup loop and the mtime sort. -/

instance : IsTotal Video (fun a b => a.mtime ≤ b.mtime) :=
  ⟨fun a b => Nat.le_total a.mtime b.mtime⟩

instance : IsTrans Video (fun a b => a.mtime ≤ b.mtime) :=
  ⟨fun _ _ _ => Nat.le_trans⟩

lemma sortByMtime_sorted (l : List Video) :
    List.Sorted (fun a b => a.mtime ≤ b.mtime) (sortByMtime l) :=
  List.sorted_insertionSort _ l

lemma cleanupGo_deleted_sublist (minFree maxStorage : Nat) (keep : Option String) :
    ∀ (pending kept : List Video) (free : Nat) (idx : List (String × String)),
      List.Sublist (cleanupGo minFree maxStorage keep pending kept free idx).deleted
        (pending.map (·.name)) := by
  intro pending
  induction pending with
  | nil => intro kept free idx; simp [cleanupGo]
  | cons v vs ih =>
    intro kept free idx
    by_cases hk : (keep == some v.name) = true
    · simpa [cleanupGo, hk] using (ih (kept ++ [v]) free idx).cons v.name
    · by_cases hs : minFree < free ∧ heldSize (kept ++ v :: vs) < maxStorage
      · simp [cleanupGo, hk, hs]
      · simpa [cleanupGo, hk, hs] using
          (ih kept (free + v.size) (removeIndexEntry v.name idx)).cons₂ v.name

lemma cleanupGo_keep_not_deleted (minFree maxStorage : Nat) (c : String) :
    ∀ (pending kept : List Video) (free : Nat) (idx : List (String × String)),
      c ∉ (cleanupGo minFree maxStorage (some c) pending kept free idx).deleted := by
  intro pending
  induction pending with
  | nil => intro kept free idx; simp [cleanupGo]
  | cons v vs ih =>
    intro kept free idx
    by_cases hk : ((some c : Option String) == some v.name) = true
    · simpa [cleanupGo, hk] using ih (kept ++ [v]) free idx
    · by_cases hs : minFree < free ∧ heldSize (kept ++ v :: vs) < maxStorage
      · simp [cleanupGo, hk, hs]
      · have hne : c ≠ v.name := by
          intro h
          exact hk (by simp [h])
        simpa [cleanupGo, hk, hs, hne] using ih kept (free + v.size) (removeIndexEntry v.name idx)

lemma cleanupGo_post (minFree maxStorage : Nat) (keep : Option String) :
    ∀ (pending kept : List Video) (free : Nat) (idx : List (String × String)),
      (∀ v ∈ kept, keep = some v.name) →
      (minFree < (cleanupGo minFree maxStorage keep pending kept free idx).free ∧
          heldSize (cleanupGo minFree maxStorage keep pending kept free idx).videos < maxStorage) ∨
        ∀ v ∈ (cleanupGo minFree maxStorage keep pending kept free idx).videos,
          keep = some v.name := by
  intro pending
  induction pending with
  | nil =>
    intro kept free idx h
    right
    simp [cleanupGo]
    exact h
  | cons v vs ih =>
    intro kept free idx h
    by_cases hk : (keep == some v.name) = true
    · have h' : ∀ w ∈ kept ++ [v], keep = some w.name := by
        intro w hw
        rcases List.mem_append.mp hw with hw | hw
        · exact h w hw
        · have hwv : w = v := by simp at hw; exact hw
          subst hwv
          exact eq_of_beq hk
      simpa [cleanupGo, hk] using ih (kept ++ [v]) free idx h'
    · by_cases hs : minFree < free ∧ heldSize (kept ++ v :: vs) < maxStorage
      · left
        simp [cleanupGo, hk, hs]
      · simpa [cleanupGo, hk, hs] using
          ih kept (free + v.size) (removeIndexEntry v.name idx) h

/-! Claim theorems. -/

/-- Claim C1, counterexample: at a concrete reachable store state, a
`cleanup_old_videos` eviction pass deletes `a.mp4` even though `a.mp4`
is bound to the UpNext slot (it is in the spec's protected set), because
the pass protects only the current item's file.  Store: `a.mp4`
(up-next, mtime 1, size 5) and `b.mp4` (current, mtime 2, size 5), free
space 3 with reserve 10 and budget 40. -/
theorem c1_cleanup_deletes_protected_upnext :
    "a.mp4" ∈ protectedFiles ⟨some "b.mp4", some "a.mp4", none⟩ ∧
      "a.mp4" ∈ (cleanup_old_videos 10 40 true
        ⟨some "idb", [("idb", "b.mp4"), ("ida", "a.mp4")]⟩
        ⟨[⟨"a.mp4", 1, 5⟩, ⟨"b.mp4", 2, 5⟩], 3⟩).deleted := by
  constructor
  · simp [protectedFiles]
  · decide

/-- Claim C1, amended: an eviction pass of `cleanup_old_videos` never
deletes the file of the item currently bound as the playlist's current
(NowPlaying) item when `keep_current` is set; files bound to UpNext
receive no such protection. -/
theorem c1_current_file_never_deleted (minFree maxStorage : Nat) (pl : Playlist)
    (fs : StoreFS) (c : String) (h : currentFile true pl = some c) :
    c ∉ (cleanup_old_videos minFree maxStorage true pl fs).deleted := by
  unfold cleanup_old_videos
  by_cases hs : minFree < fs.free ∧ heldSize fs.videos < maxStorage
  · simp [hs]
  · rw [if_neg hs, h]
    exact cleanupGo_keep_not_deleted minFree maxStorage c _ _ _ _

/-- Witness for C1's amended theorem at a concrete state: with current item
`idb` bound to `b.mp4`, the pass never deletes `b.mp4`. -/
theorem c1_current_file_never_deleted_witness :
    currentFile true ⟨some "idb", [("idb", "b.mp4"), ("ida", "a.mp4")]⟩ = some "b.mp4" ∧
      "b.mp4" ∉ (cleanup_old_videos 10 40 true
        ⟨some "idb", [("idb", "b.mp4"), ("ida", "a.mp4")]⟩
        ⟨[⟨"a.mp4", 1, 5⟩, ⟨"b.mp4", 2, 5⟩], 3⟩).deleted :=
  ⟨by decide, c1_current_file_never_deleted 10 40
    ⟨some "idb", [("idb", "b.mp4"), ("ida", "a.mp4")]⟩
    ⟨[⟨"a.mp4", 1, 5⟩, ⟨"b.mp4", 2, 5⟩], 3⟩ "b.mp4" (by decide)⟩

/-- Claim C2, counterexample: a successful `swap_videos` run whose trace
contains an observable instant (after the first rename) at which the
fixed playback path holds no file, refuting "a file exists at the fixed
playback path at every observable instant during the swap". -/
theorem c2_fixed_path_absent_mid_swap :
    (swap_videos ⟨some 1, some 2, none⟩).1 = true ∧
      swapStep1 ⟨some 1, some 2, none⟩ ∈ swapTrace ⟨some 1, some 2, none⟩ ∧
      (swapStep1 ⟨some 1, some 2, none⟩).obs = none := by
  decide

/-- Claim C2, amended: after a successful `swap_videos` call the content at
the fixed playback path equals the pre-swap content of the next path;
however, whenever the fixed path held a file before the swap, that path
is absent at the observable instant between the two renames (continuous
existence does not hold). -/
theorem c2_swap_content_correct (fs : SwapFS) (h : fs.next.isSome) :
    (swap_videos fs).1 = true ∧ (swap_videos fs).2.obs = fs.next ∧
      (fs.obs.isSome → (swapStep1 fs).obs = none) := by
  obtain ⟨o, n, t⟩ := fs
  cases n with
  | none => simp at h
  | some x =>
    cases o <;> cases t <;>
      simp [swap_videos, swapStep1, swapStep2, swapStep3]

/-- Witness for C2's amended theorem at a concrete state. -/
theorem c2_swap_content_correct_witness :
    (⟨some 5, some 6, none⟩ : SwapFS).next.isSome = true ∧
      ((swap_videos ⟨some 5, some 6, none⟩).1 = true ∧
        (swap_videos ⟨some 5, some 6, none⟩).2.obs = (⟨some 5, some 6, none⟩ : SwapFS).next ∧
        ((⟨some 5, some 6, none⟩ : SwapFS).obs.isSome →
          (swapStep1 ⟨some 5, some 6, none⟩).obs = none)) :=
  ⟨by decide, c2_swap_content_correct ⟨some 5, some 6, none⟩ (by decide)⟩

/-- Claim C3, counterexample: with reserve 10 and budget 40, a store with
no held videos and 11 units free admits (the code's check is true), yet
the spec's formula is false for a candidate of size 5
(`11 - 5 = 6 > 10` fails): the code ignores the candidate's size. -/
theorem c3_candidate_size_ignored :
    can_download 10 40 ⟨[], 11⟩ = true ∧ ¬ specCanAdmit 10 40 ⟨[], 11⟩ 5 := by
  decide

/-- Claim C3, amended: the admission check consults no candidate size —
`can_download` is true iff `freeBytes > minFreeReserve` and
`heldBytes < maxStorageBudget`, i.e. iff the spec's formula holds at
`candidateBytes = 0`. -/
theorem c3_admission_ignores_candidate (minFree maxStorage : Nat) (fs : StoreFS) :
    can_download minFree maxStorage fs = true ↔ specCanAdmit minFree maxStorage fs 0 := by
  simp [can_download, specCanAdmit]

/-- Claim C5, counterexample: a download whose stream delivers 5 bytes
against a declared size of 10 still succeeds, leaves the 5-byte file
published at the final path, and records the index entry (no
verification); moreover during a successful download the partial byte
counts 0, 3, 7 are observable at the final output path itself (the
stream is not written to a temporary path). -/
theorem c5_short_download_published :
    download_video true 10 [5] none = ⟨some 5, true, true⟩ ∧ (5 : Nat) ≠ 10 ∧
      downloadMidSizes [3, 4] = [0, 3, 7] := by
  decide

/-- Claim C5, amended: the byte stream is written directly to the final
output path with no completeness verification — the outcome is
independent of the declared size — and on the exception exit path the
partial file is unlinked, so no file and no index entry remain. -/
theorem c5_no_temp_no_verification (canDl : Bool) (d d' : Nat) (chunks : List Nat)
    (failAfter : Option Nat) (k : Nat) :
    download_video canDl d chunks failAfter = download_video canDl d' chunks failAfter ∧
      download_video canDl d chunks (some k) = ⟨none, false, false⟩ := by
  cases canDl <;> cases failAfter <;> simp [download_video]

/-- Claim C4, counterexample: when the second rename fails after the
current file was moved to the transient path, `swap_videos` propagates
the exception (it has no handler) with the fixed playback path left
empty: no restoration of `currentPath` is attempted. -/
theorem c4_no_restoration_on_failed_rename :
    swap_videos_rename2_fails ⟨some 7, some 9, none⟩ = (none, ⟨none, some 9, some 7⟩) ∧
      (swap_videos_rename2_fails ⟨some 7, some 9, none⟩).2.obs = none := by
  decide

/-- Claim C4, amended: when the second rename fails after the current file
was moved to the transient path, the exception propagates without any
restoration — the fixed path is left absent — but the previously-playing
content is not deleted: it survives intact at the transient path. -/
theorem c4_failed_swap_keeps_content_at_temp (fs : SwapFS) (hn : fs.next.isSome)
    (ho : fs.obs.isSome) :
    (swap_videos_rename2_fails fs).1 = none ∧
      (swap_videos_rename2_fails fs).2.temp = fs.obs ∧
      (swap_videos_rename2_fails fs).2.obs = none := by
  obtain ⟨o, n, t⟩ := fs
  cases n with
  | none => simp at hn
  | some x =>
    cases o with
    | none => simp at ho
    | some a => simp [swap_videos_rename2_fails, swapStep1]

/-- Witness for C4's amended theorem at a concrete state. -/
theorem c4_failed_swap_keeps_content_at_temp_witness :
    (⟨some 7, some 9, some 3⟩ : SwapFS).next.isSome = true ∧
      (⟨some 7, some 9, some 3⟩ : SwapFS).obs.isSome = true ∧
      ((swap_videos_rename2_fails ⟨some 7, some 9, some 3⟩).1 = none ∧
        (swap_videos_rename2_fails ⟨some 7, some 9, some 3⟩).2.temp =
          (⟨some 7, some 9, some 3⟩ : SwapFS).obs ∧
        (swap_videos_rename2_fails ⟨some 7, some 9, some 3⟩).2.obs = none) :=
  ⟨by decide, by decide,
    c4_failed_swap_keeps_content_at_temp ⟨some 7, some 9, some 3⟩ (by decide) (by decide)⟩

/-- Claim C6, counterexample: on a store over budget holding two
equal-mtime items (listing order: `small.mp4` of size 1 before `big.mp4`
of size 9, free space 3, reserve 10, budget 40), the code evicts
`small.mp4` first and then `big.mp4` (stable sort keeps listing order on
ties), while the spec's tie-break (larger size first) would evict
exactly `big.mp4`: the eviction sequences disagree. -/
theorem c6_tiebreak_differs_from_spec :
    (cleanup_old_videos 10 40 true ⟨none, []⟩
        ⟨[⟨"small.mp4", 5, 1⟩, ⟨"big.mp4", 5, 9⟩], 3⟩).deleted = ["small.mp4", "big.mp4"] ∧
      reclaimUntilBudgetOkSpec 10 40 [] [⟨"small.mp4", 5, 1⟩, ⟨"big.mp4", 5, 9⟩] 3
        = ["big.mp4"] ∧
      (cleanup_old_videos 10 40 true ⟨none, []⟩
          ⟨[⟨"small.mp4", 5, 1⟩, ⟨"big.mp4", 5, 9⟩], 3⟩).deleted
        ≠ reclaimUntilBudgetOkSpec 10 40 [] [⟨"small.mp4", 5, 1⟩, ⟨"big.mp4", 5, 9⟩] 3 := by
  decide

/-- Claim C6, amended: `cleanup_old_videos` evicts in
oldest-modification-time-first order — the deletion sequence is a
sublist of the stable mtime-sorted listing, which is sorted by mtime —
with ties broken by directory-listing order (not by size), skipping the
kept current file, and it stops as soon as the budget check passes: on
return either the check holds or every surviving video is the kept
current file. -/
theorem c6_eviction_order_and_stopping (minFree maxStorage : Nat) (keepCurrent : Bool)
    (pl : Playlist) (fs : StoreFS) :
    List.Sublist (cleanup_old_videos minFree maxStorage keepCurrent pl fs).deleted
        ((sortByMtime fs.videos).map (·.name)) ∧
      List.Sorted (fun a b => a.mtime ≤ b.mtime) (sortByMtime fs.videos) ∧
      ((minFree < (cleanup_old_videos minFree maxStorage keepCurrent pl fs).free ∧
          heldSize (cleanup_old_videos minFree maxStorage keepCurrent pl fs).videos
            < maxStorage) ∨
        ∀ v ∈ (cleanup_old_videos minFree maxStorage keepCurrent pl fs).videos,
          currentFile keepCurrent pl = some v.name) := by
  refine ⟨?_, sortByMtime_sorted _, ?_⟩ <;> unfold cleanup_old_videos <;>
    by_cases hs : minFree < fs.free ∧ heldSize fs.videos < maxStorage
  · simp [hs]
  · rw [if_neg hs]
    exact cleanupGo_deleted_sublist minFree maxStorage _ _ _ _ _
  · left
    simp [hs]
  · rw [if_neg hs]
    exact cleanupGo_post minFree maxStorage _ _ _ _ _ (by simp)

/-- Claim C7, confirmed: eviction is idempotent.  The per-file guarded
delete (`if old_file.exists(): old_file.unlink()`) and the coordinator's
`cleanup_old_video` keep-list pass both act only on files present in the
listing, so running either twice in a row equals running it once, and
the second run is a no-op success (no error path exists: absent files
are simply not iterated). -/
theorem c7_evict_idempotent (name : String) (keepFiles : List String)
    (videos : List Video) :
    evictFile name (evictFile name videos) = evictFile name videos ∧
      cleanup_old_video keepFiles (cleanup_old_video keepFiles videos)
        = cleanup_old_video keepFiles videos := by
  constructor <;> simp [evictFile, cleanup_old_video, List.filter_filter]

/-- Claim C8, confirmed: in a monitoring cycle with a bound current video,
a start time, and positive duration, a prefetch is initiated exactly
when progress `elapsed/duration*100` exceeds 75 and `next_stream.mp4`
does not yet exist; on the following cycle, a prefetch already
downloading has created `next_stream.mp4` (the copy opens its
destination first), so no second prefetch is initiated. -/
theorem c8_prefetch_threshold (v : String) (t0 now dur : ℚ) (h : 0 < dur) :
    ((monitor_playback ⟨some v, some t0, dur⟩ now false).prefetchStarted = true ↔
      75 < (now - t0) / dur * 100) ∧
    (monitor_playback ⟨some v, some t0, dur⟩ now true).prefetchStarted = false := by
  simp [monitor_playback, h]

/-- Witness for C8 at the spec's scenario: duration 100s, elapsed 76s
(progress 76%), prefetch fires with UpNext empty and not with the next
file already downloading. -/
theorem c8_prefetch_threshold_witness :
    (0 : ℚ) < 100 ∧
      (((monitor_playback ⟨some "v", some 0, 100⟩ 76 false).prefetchStarted = true ↔
        75 < ((76 : ℚ) - 0) / 100 * 100) ∧
      (monitor_playback ⟨some "v", some 0, 100⟩ 76 true).prefetchStarted = false) :=
  ⟨by norm_num, c8_prefetch_threshold "v" 0 76 100 (by norm_num)⟩

/-- Claim C9, counterexample: a persisted state binding NowPlaying to
`ghost.mp4` is reloaded on a disk where no file exists at all
(`fun _ => false`), yet the coordinator keeps the binding (initial setup
is skipped): the binding is recovered even though its bound file is
absent, refuting "recovered if and only if its file still exists". -/
theorem c9_stale_binding_kept_without_file :
    run_coordinator_keeps (some ⟨some "ghost.mp4", none, none⟩) (fun _ => false) = true ∧
      (load_state (some ⟨some "ghost.mp4", none, none⟩)).nowPlaying = some "ghost.mp4" :=
  ⟨rfl, rfl⟩

/-- Claim C9, amended: on restart the OBS feeder keeps the loaded state
exactly when the fixed playback path exists and otherwise rebuilds from
the queue, discarding the loaded bindings; the stream coordinator,
however, performs no file-existence validation: whether it keeps the
loaded NowPlaying binding depends only on the binding being non-null,
not on any file on disk. -/
theorem c9_restart_validation (persisted : Option CoordPersisted) (f g : String → Bool)
    (loaded : FeederState) (queue : List String) (now dur : ℚ) :
    run_coordinator_keeps persisted f = run_coordinator_keeps persisted g ∧
      run_coordinator_keeps persisted f = (load_state persisted).nowPlaying.isSome ∧
      run_feeder_init true loaded queue now dur = some loaded ∧
      run_feeder_init false loaded queue now dur = initStream queue now dur :=
  ⟨rfl, rfl, rfl, rfl⟩

/-- Claim C10, confirmed: when the fixed playback path is absent but a
next file is prepared, `swap_videos` succeeds: the guarded first rename
is skipped (the filesystem is untouched by that step), the next file is
promoted to the fixed path, and the call returns success. -/
theorem c10_swap_succeeds_without_current (c : Nat) (t : Option Nat) :
    swap_videos ⟨none, some c, t⟩ = (true, ⟨some c, none, none⟩) ∧
      swapStep1 ⟨none, some c, t⟩ = ⟨none, some c, t⟩ := by
  cases t <;> exact ⟨rfl, rfl⟩

end BobbyTV

